import Mathlib

/-!
Verification development for the SelfRay-UI panel (src/app/main.py).

The development shallowly embeds the configuration-synthesis function
`generate_xray_config`, the quota/expiry reconciler `_check_and_disable_clients`,
the process-supervisor functions `start_xray` / `stop_xray` / `restart_xray`,
and the mutating API handlers relevant to the claims, and proves the claimed
properties about them.

Conventions of the embedding:
* SQLite rows become Lean structures; `SELECT ... WHERE enabled=1` in row order
  becomes `List.filter` over the stored list, which preserves order.
* JSON values are the inductive `Json` below; a stored JSON text column is
  embedded as its parsed form.  For the three operator-supplied JSON settings
  (`custom_routing_rules`, `custom_dns`, `custom_outbounds`) the source
  distinguishes "absent/empty string", "present but json.loads fails" and
  "parsed"; `JsonSetting` carries exactly those three outcomes.
* Machine-level effects (file writes, process spawns, external key generation)
  are made explicit: `generate_xray_config` returns the list of file writes it
  performs, and spawning is an oracle argument to `start_xray`.
-/

/-- JSON values as produced by Python's `json` module: strings, numbers
(integers suffice for this program), booleans, null, arrays and objects.
Objects keep insertion order, as Python dicts do. -/
inductive Json where
  | str (s : String)
  | num (n : Int)
  | bool (b : Bool)
  | null
  | arr (xs : List Json)
  | obj (fields : List (String × Json))

/-- Python truthiness of a JSON value: empty string, zero, `False`, `None`,
empty list and empty dict are falsy; everything else is truthy. -/
def Json.truthy : Json → Bool
  | .str s => s ≠ ""
  | .num n => n ≠ 0
  | .bool b => b
  | .null => false
  | .arr xs => !xs.isEmpty
  | .obj fs => !fs.isEmpty

/-- Dictionary lookup `d.get(k)`: first binding of the key, if any. -/
def getField (fs : List (String × Json)) (k : String) : Option Json :=
  match fs.find? (fun kv => kv.1 == k) with
  | some kv => some kv.2
  | none => none

/-- Dictionary assignment `d[k] = v`: replace the binding in place when the key
is present (Python dicts keep the original position), append it otherwise. -/
def setField (fs : List (String × Json)) (k : String) (v : Json) : List (String × Json) :=
  match fs with
  | [] => [(k, v)]
  | kv :: rest =>
      if kv.1 == k then (k, v) :: rest
      else kv :: setField rest k v

/-- The keys of a JSON object, in order. -/
def objKeys (fs : List (String × Json)) : List String :=
  fs.map (fun kv => kv.1)

/-- Outcome of `get_setting(key)` followed by `json.loads` on one of the three
operator-supplied JSON settings: the setting is absent or the empty string
(Python-falsy, the loads is never attempted), or loads raises, or loads
succeeds with a value. -/
inductive JsonSetting where
  | empty
  | malformed
  | parsed (j : Json)

/-- A row of the `clients` table (the columns the embedded code reads). -/
structure Client where
  id : String
  inbound_id : Nat
  email : String
  uuid : String
  flow : String
  enabled : Bool
  expiry_time : Int
  traffic_limit : Int
  upload : Int
  download : Int
  ip_limit : Int
deriving DecidableEq

/-- A row of the `inbounds` table.  The JSON text columns `settings`,
`stream_settings`, `sniffing` and `allocate` are embedded as parsed values:
`settings` is an object (its field list), `sniffing = none` models the empty
string (falsy, so the source substitutes its default), and `allocate = none`
models the empty string or the literal text of an empty object, which the
source maps to Python `None`. -/
structure Inbound where
  id : Nat
  tag : String
  protocol : String
  listen : String
  port : Nat
  settings : List (String × Json)
  stream_settings : Json
  sniffing : Option Json
  allocate : Option (List (String × Json))
  enabled : Bool
  remark : String

/-- The database state visible to the embedded code: the `inbounds` and
`clients` tables in rowid order, the plain string settings as a key-value
list, and the three JSON-valued settings as their load outcomes. -/
structure Db where
  inbounds : List Inbound
  clients : List Client
  kv : List (String × String)
  custom_routing_rules : JsonSetting
  custom_dns : JsonSetting
  custom_outbounds : JsonSetting

/-- `get_setting(key, default)`: the stored value when the key is present,
the default otherwise. -/
def get_setting (db : Db) (key dflt : String) : String :=
  match db.kv.find? (fun kv => kv.1 == key) with
  | some kv => kv.2
  | none => dflt

/-- `set_setting(key, value)`: `INSERT OR REPLACE` on the primary key. -/
def set_setting (db : Db) (key value : String) : Db :=
  { db with kv := (key, value) :: db.kv.filter (fun kv => kv.1 ≠ key) }

/-- The per-client object built inside `generate_xray_config` for the three
protocols that embed a client list (lines 159-168 of main.py). -/
def clientObj (protocol : String) (c : Client) : Json :=
  if protocol == "vless" then
    Json.obj [("id", .str c.uuid), ("email", .str c.email), ("flow", .str c.flow)]
  else if protocol == "vmess" then
    Json.obj [("id", .str c.uuid), ("email", .str c.email), ("alterId", .num 0)]
  else
    Json.obj [("password", .str c.uuid), ("email", .str c.email)]

/-- One entry of the emitted `inbounds` array. -/
structure InboundCfg where
  tag : String
  listen : String
  port : Nat
  protocol : String
  settings : List (String × Json)
  streamSettings : Json
  sniffing : Json
  allocate : Option Json

/-- The sniffing default substituted when the stored column is empty. -/
def defaultSniffing : Json :=
  Json.obj [("enabled", .bool true), ("destOverride", .arr [.str "http", .str "tls", .str "quic"])]

/-- The enabled clients of one inbound, in row order
(`SELECT * FROM clients WHERE inbound_id=? AND enabled=1`). -/
def enabledClientsOf (db : Db) (ib : Inbound) : List Client :=
  db.clients.filter (fun c => c.inbound_id == ib.id && c.enabled)

/-- The membership test `ib["protocol"] in ("vless", "vmess", "trojan")`
guarding the client-list embedding. -/
def isClientProtocol (p : String) : Bool :=
  p == "vless" || p == "vmess" || p == "trojan"

/-- The body of the per-inbound loop of `generate_xray_config`: read the
enabled clients, overwrite `settings["clients"]` for vless/vmess/trojan,
substitute the sniffing default, and attach `allocate` only when it parsed to
a non-empty object with a truthy `strategy`. -/
def inboundCfgOf (db : Db) (ib : Inbound) : InboundCfg :=
  let clientsRows := enabledClientsOf db ib
  let settings :=
    if isClientProtocol ib.protocol then
      setField ib.settings "clients" (Json.arr (clientsRows.map (clientObj ib.protocol)))
    else
      ib.settings
  { tag := ib.tag
    listen := ib.listen
    port := ib.port
    protocol := ib.protocol
    settings := settings
    streamSettings := ib.stream_settings
    sniffing := ib.sniffing.getD defaultSniffing
    allocate :=
      match ib.allocate with
      | none => none
      | some fs =>
          if !fs.isEmpty && (match getField fs "strategy" with
                             | some v => v.truthy
                             | none => false) then
            some (Json.obj fs)
          else none }

/-- The reserved management inbound placed first in the emitted array. -/
def apiInboundCfg (apiPort : Nat) : InboundCfg :=
  { tag := "api-in"
    listen := "127.0.0.1"
    port := apiPort
    protocol := "dokodemo-door"
    settings := [("address", .str "127.0.0.1")]
    streamSettings := Json.obj []
    sniffing := Json.obj []
    allocate := none }

/-- The two baseline outbounds. -/
def baselineOutbounds : List Json :=
  [Json.obj [("tag", .str "direct"), ("protocol", .str "freedom")],
   Json.obj [("tag", .str "blocked"), ("protocol", .str "blackhole")]]

/-- `ob.get("tag") not in existing_tags` where `existing_tags` is the set of
baseline tags: true exactly when the entry's `tag` field is the string
"direct" or "blocked". -/
def hasBaselineTag (fs : List (String × Json)) : Bool :=
  match getField fs "tag" with
  | some (.str s) => s == "direct" || s == "blocked"
  | _ => false

/-- The `custom_outbounds` merge loop.  `existing_tags` is computed once from
the two baseline outbounds before the loop and never updated inside it, so
every dict entry whose tag is not a baseline tag is appended — duplicates
included.  A non-dict entry raises `AttributeError` inside the surrounding
`try`, aborting the loop but keeping the entries already appended. -/
def mergeOutbounds : List Json → List Json
  | [] => []
  | Json.obj fs :: rest =>
      if hasBaselineTag fs then mergeOutbounds rest
      else Json.obj fs :: mergeOutbounds rest
  | _ :: _ => []

/-- The structured configuration document built by `generate_xray_config`
(the fixed `log`/`api`/`stats`/`policy` members are constants in the source
and carry no claim content; the varying members are embedded). -/
structure Config where
  loglevel : String
  inbounds : List InboundCfg
  outbounds : List Json
  routingRules : List Json
  dns : Option Json

/-- The routing rule list: the management rule first, the bittorrent block
when `block_bittorrent` is "true", then the leniently-parsed extra rules. -/
def routingRulesOf (db : Db) : List Json :=
  let base := [Json.obj [("type", .str "field"),
                         ("inboundTag", .arr [.str "api-in"]),
                         ("outboundTag", .str "api")]]
  let base :=
    if get_setting db "block_bittorrent" "true" == "true" then
      base ++ [Json.obj [("type", .str "field"),
                         ("protocol", .arr [.str "bittorrent"]),
                         ("outboundTag", .str "blocked")]]
    else base
  match db.custom_routing_rules with
  | .parsed (.arr extra) => base ++ extra
  | _ => base

/-- The DNS member: absent when the setting is empty or parses to a falsy
value, the fixed resolver pair when loads raises, the parsed value when it is
truthy. -/
def dnsOf (db : Db) : Option Json :=
  match db.custom_dns with
  | .empty => none
  | .malformed => some (Json.obj [("servers", .arr [.str "1.1.1.1", .str "8.8.8.8"])])
  | .parsed j => if j.truthy then some j else none

/-- The outbounds member: baselines first, then the merged extra outbounds
when the setting parsed to a list (iterating any non-list raises inside the
`try` before anything is appended). -/
def outboundsOf (db : Db) : List Json :=
  match db.custom_outbounds with
  | .parsed (.arr obs) => baselineOutbounds ++ mergeOutbounds obs
  | _ => baselineOutbounds

/-- The pure value computed by `generate_xray_config` from the database state
(`int(...)` on a non-numeric stored port would raise in the source; the
embedding is only used on numeric or absent values, where `toNat?` agrees). -/
def xrayConfigOf (db : Db) : Config :=
  { loglevel := get_setting db "xray_log_level" "warning"
    inbounds :=
      apiInboundCfg ((get_setting db "xray_api_port" "10085").toNat?.getD 0)
        :: (db.inbounds.filter (fun ib => ib.enabled)).map (inboundCfgOf db)
    outbounds := outboundsOf db
    routingRules := routingRulesOf db
    dns := dnsOf db }

/-- A file write performed by the embedded code: target path and document. -/
structure FileWrite where
  path : String
  doc : Config

/-- `generate_xray_config()` with its effects explicit: it computes the
document and, before returning it, itself dumps it to the config path
(lines 255-257 of main.py). -/
structure GenResult where
  config : Config
  writes : List FileWrite

/-- The fixed path `XRAY_CONFIG_PATH` relative to the data directory. -/
def xrayConfigPath : String := "data/xray_config.json"

/-- The embedding of `generate_xray_config`. -/
def generate_xray_config (db : Db) : GenResult :=
  { config := xrayConfigOf db
    writes := [{ path := xrayConfigPath, doc := xrayConfigOf db }] }

/-- The disable condition evaluated by one iteration of the reconciler loop in
`_check_and_disable_clients` (lines 362-369 of main.py): expiry is checked
with a strict `now > expiry_time`, quota with `upload+download >=
traffic_limit`, each guarded by the Python truthiness test and the `> 0`
test on the stored field.  `upload or 0` / `download or 0` are the identity
on integer columns. -/
def shouldDisable (now : Int) (c : Client) : Bool :=
  let expired := c.expiry_time ≠ 0 && c.expiry_time > 0 && now > c.expiry_time
  let overQuota := c.traffic_limit ≠ 0 && c.traffic_limit > 0 &&
    c.upload + c.download ≥ c.traffic_limit
  expired || overQuota

/-- Result of one reconciler pass: the new database state and how many times
`restart_xray()` was invoked. -/
structure PassResult where
  db : Db
  restarts : Nat

/-- The embedding of `_check_and_disable_clients` (the reconciler pass):
select the enabled clients, mark each whose disable condition holds with
`UPDATE clients SET enabled=0 WHERE id=?`, and, when at least one was marked,
commit once and call `restart_xray()` once.  When nothing was marked the
connection is closed without a commit and no restart happens.  (The
best-effort Telegram notification inside the loop is an external side effect
with no influence on the database or the restart count.) -/
def check_and_disable_clients (now : Int) (db : Db) : PassResult :=
  let idsToDisable :=
    (db.clients.filter (fun c => c.enabled && shouldDisable now c)).map (fun c => c.id)
  { db := { db with
      clients := db.clients.map (fun c =>
        if idsToDisable.contains c.id then { c with enabled := false } else c) }
    restarts := if idsToDisable.isEmpty then 0 else 1 }

/-- Outcome of the `subprocess.Popen` call, supplied as an oracle: either the
engine process spawns with some pid, or the spawn raises. -/
inductive SpawnOutcome where
  | ok (pid : Nat)
  | err (msg : String)

/-- The supervisor's only shared state: the module-level `xray_process`
handle, `none` when no process is tracked (Stopped). -/
def XrayState := Option Nat

/-- `stop_xray()`: terminate the tracked process if alive and always clear the
handle; idempotent when already stopped. -/
def stop_xray (_s : Option Nat) : Option Nat := none

/-- The embedding of `start_xray()`: it first calls `stop_xray()`, then fails
fast when the engine binary is absent, otherwise synthesizes the config
(a file write, see `generate_xray_config`) and spawns the process.  When
`Popen` raises, the assignment to `xray_process` never happens, so the handle
stays cleared.  Returns the new handle and the boolean result. -/
def start_xray (binPresent : Bool) (spawn : SpawnOutcome) (s : Option Nat) :
    Option Nat × Bool :=
  let s1 := stop_xray s
  if !binPresent then (s1, false)
  else
    match spawn with
    | .ok pid => (some pid, true)
    | .err _ => (s1, false)

/-- `restart_xray()`: `stop_xray()` then `start_xray()`, returning the result
of the start. -/
def restart_xray (binPresent : Bool) (spawn : SpawnOutcome) (s : Option Nat) :
    Option Nat × Bool :=
  let s1 := stop_xray s
  start_xray binPresent spawn s1

/-- The `/api/xray/restart` handler: returns the JSON body
`success: restart_xray()`; the handler never raises because `start_xray`
catches the spawn exception internally. -/
def api_xray_restart (binPresent : Bool) (spawn : SpawnOutcome) (s : Option Nat) :
    Option Nat × Bool :=
  restart_xray binPresent spawn s

/-- The request body of `POST /api/settings`; `none` fields were omitted from
the request.  The two JSON-valued settings carry the load outcome their
stored string will produce (the handler itself stores them verbatim). -/
structure SettingsUpdate where
  panel_port : Option Int := none
  panel_host : Option String := none
  panel_path : Option String := none
  xray_api_port : Option Int := none
  xray_log_level : Option String := none
  sub_enable : Option Bool := none
  sub_port : Option Int := none
  sub_path : Option String := none
  block_bittorrent : Option Bool := none
  custom_dns : Option JsonSetting := none
  custom_routing_rules : Option JsonSetting := none
  tg_bot_token : Option String := none
  tg_chat_id : Option String := none
  tg_notify_login : Option Bool := none
  tg_notify_expiry : Option Bool := none
  tg_notify_traffic : Option Bool := none

/-- Write a setting when the request supplied a value. -/
def setOpt (db : Db) (k : String) (v : Option String) : Db :=
  match v with
  | some s => set_setting db k s
  | none => db

/-- Python's lowercase boolean strings used by the settings handlers. -/
def pyBoolStr (b : Bool) : String := if b then "true" else "false"

/-- The embedding of `api_update_settings` (lines 597-621 of main.py): each
supplied field is written with `set_setting`; the handler then returns
`success: true` with the note "Restart xray to apply xray-related changes"
and calls no restart — the restart count of this handler is 0. -/
def api_update_settings (db : Db) (d : SettingsUpdate) : Db × Nat :=
  let db := setOpt db "panel_port" (d.panel_port.map toString)
  let db := setOpt db "panel_host" d.panel_host
  let db := setOpt db "panel_path" d.panel_path
  let db := setOpt db "xray_api_port" (d.xray_api_port.map toString)
  let db := setOpt db "xray_log_level" d.xray_log_level
  let db := setOpt db "sub_port" (d.sub_port.map toString)
  let db := setOpt db "sub_path" d.sub_path
  let db := match d.custom_dns with
            | some js => { db with custom_dns := js }
            | none => db
  let db := match d.custom_routing_rules with
            | some js => { db with custom_routing_rules := js }
            | none => db
  let db := setOpt db "sub_enable" (d.sub_enable.map pyBoolStr)
  let db := setOpt db "block_bittorrent" (d.block_bittorrent.map pyBoolStr)
  let db := setOpt db "tg_bot_token" d.tg_bot_token
  let db := setOpt db "tg_chat_id" d.tg_chat_id
  let db := setOpt db "tg_notify_login" (d.tg_notify_login.map pyBoolStr)
  let db := setOpt db "tg_notify_expiry" (d.tg_notify_expiry.map pyBoolStr)
  let db := setOpt db "tg_notify_traffic" (d.tg_notify_traffic.map pyBoolStr)
  (db, 0)

/-- The embedding of `api_toggle_inbound`: 404 when the id is absent
(no write, no restart), otherwise flip the flag, commit, and call
`restart_xray()` once.  Returns the new state, the reported flag and the
restart count. -/
def api_toggle_inbound (db : Db) (iid : Nat) : Option (Db × Bool × Nat) :=
  match db.inbounds.find? (fun ib => ib.id == iid) with
  | none => none
  | some row =>
      let nv := !row.enabled
      some ({ db with
                inbounds := db.inbounds.map (fun ib =>
                  if ib.id == iid then { ib with enabled := nv } else ib) },
            nv, 1)

/-- The embedding of `api_reset_client_traffic`: zero the counters of the
addressed client (no existence check in the source), commit, return
`success: true` — and call no restart. -/
def api_reset_client_traffic (db : Db) (cid : String) : Db × Nat :=
  ({ db with clients := db.clients.map (fun c =>
      if c.id == cid then { c with upload := 0, download := 0 } else c) }, 0)

/-- The embedding of `api_delete_inbound`: delete the owned clients and the
inbound unconditionally, commit, and call `restart_xray()` once. -/
def api_delete_inbound (db : Db) (iid : Nat) : Db × Nat :=
  ({ db with
      clients := db.clients.filter (fun c => c.inbound_id ≠ iid),
      inbounds := db.inbounds.filter (fun ib => ib.id ≠ iid) }, 1)

/-- The request body of `POST /api/inbounds/id/clients`.  `expiry_days` and
the traffic limit keep their handler-side conversions explicit:
`traffic_limit_bytes` is `int(traffic_limit_gb * 1024**3)`. -/
structure ClientCreate where
  email : String
  flow : String := ""
  expiry_days : Int := 0
  traffic_limit_bytes : Int := 0
  ip_limit : Int := 0

/-- The embedding of `api_add_client`: 404 when the inbound is absent,
otherwise insert a new enabled client row (fresh secure-random `cid` and
`cuuid` are oracle inputs; expiry is now plus the requested days in
milliseconds when positive) and call `restart_xray()` once. -/
def api_add_client (db : Db) (iid : Nat) (d : ClientCreate) (nowMs : Int)
    (cuuid cid : String) : Option (Db × Nat) :=
  match db.inbounds.find? (fun ib => ib.id == iid) with
  | none => none
  | some _ =>
      let expiry : Int := if d.expiry_days > 0 then nowMs + d.expiry_days * 86400000 else 0
      let c : Client :=
        { id := cid, inbound_id := iid, email := d.email, uuid := cuuid,
          flow := d.flow, enabled := true, expiry_time := expiry,
          traffic_limit := d.traffic_limit_bytes, upload := 0, download := 0,
          ip_limit := d.ip_limit }
      some ({ db with clients := db.clients ++ [c] }, 1)

/-- `[s.strip() for s in text.split(",") if s.strip()]`. -/
def splitTrim (s : String) : List String :=
  ((s.splitOn ",").map (fun x => x.trim)).filter (fun x => x ≠ "")

/-- The request body of `POST /api/inbounds` (the fields the embedded code
paths read; the transport-specific fields only feed `_build_stream_settings`,
which is kept abstract as the `stream` argument of `api_create_inbound`). -/
structure InboundCreate where
  protocol : String
  port : Nat
  listen : String := ""
  remark : String := ""
  security : String := "none"
  reality_private_key : String := ""
  reality_public_key : String := ""
  flow : String := ""
  vless_decryption : String := "none"
  trojan_fallback_addr : String := ""
  trojan_fallback_port : Nat := 0
  ss_method : String := "chacha20-ietf-poly1305"
  ss_password : String := ""
  ss_network : String := "tcp,udp"
  sniffing_enabled : Bool := true
  sniffing_dest_override : String := "http,tls,quic"
  sniffing_route_only : Bool := false
  client_name : String := ""
  country : String := ""

/-- The embedding of `_build_protocol_settings`: the stored protocol settings
blob.  `ssRandomPw` is the `secrets.token_urlsafe(16)` fallback drawn when a
shadowsocks inbound is created without a password. -/
def build_protocol_settings (d : InboundCreate) (ssRandomPw : String) :
    List (String × Json) :=
  if d.protocol == "vless" then
    let s := [("clients", Json.arr []),
              ("decryption", Json.str (if d.vless_decryption == "" then "none"
                                       else d.vless_decryption))]
    if d.security == "reality" && d.flow ≠ "" then s ++ [("flow", .str d.flow)] else s
  else if d.protocol == "vmess" then
    [("clients", Json.arr [])]
  else if d.protocol == "trojan" then
    let s := [("clients", Json.arr [])]
    if d.trojan_fallback_addr ≠ "" then
      s ++ [("fallbacks", Json.arr [Json.obj
              [("addr", .str d.trojan_fallback_addr),
               ("port", .num (if d.trojan_fallback_port == 0 then 80
                              else (d.trojan_fallback_port : Int)))]])]
    else s
  else if d.protocol == "shadowsocks" then
    [("method", .str d.ss_method),
     ("password", .str (if d.ss_password == "" then ssRandomPw else d.ss_password)),
     ("network", .str d.ss_network)]
  else []

/-- The sniffing blob built by `api_create_inbound`. -/
def buildSniffing (d : InboundCreate) : Json :=
  let base := [("enabled", Json.bool d.sniffing_enabled),
               ("destOverride", Json.arr ((splitTrim d.sniffing_dest_override).map Json.str))]
  Json.obj (if d.sniffing_route_only then base ++ [("routeOnly", Json.bool true)] else base)

/-- `last_insert_rowid()` for the inbounds table: one past the largest id. -/
def freshInboundId (db : Db) : Nat :=
  (db.inbounds.map (fun ib => ib.id)).foldr max 0 + 1

/-- Outcome of a fallible mutating handler: the database it leaves behind,
how many times `restart_xray()` ran, and the HTTP-level result (`.error` is a
raised `HTTPException`, `.ok` carries the created id). -/
structure HandlerOutcome where
  db : Db
  restarts : Nat
  result : Except String Nat

/-- The embedding of `api_create_inbound`.  Oracle inputs stand for the
random draws and the external key-generation call: `suffix` is
`secrets.token_hex(3)`, `genKeys` the outcome of `_generate_reality_keys`
(`none` when the binary is missing or parsing fails, in which case the
handler raises 400 before touching the store), `ssRandomPw`, `cuuid`, `cid`
the generated credential material, and `stream` the blob built by
`_build_stream_settings`.  The generated Reality keys only overwrite the two
key fields of the request, so the tag — computed here before that overwrite,
after it in the source — is the same `protocol-port-suffix` either way.  A
UNIQUE violation on it raises "Tag conflict" with nothing committed (the
failed INSERT is the first write, so the store is unchanged and no restart
runs).
On success the default client is inserted for every protocol except
shadowsocks, and `restart_xray()` runs once. -/
def api_create_inbound (db : Db) (d : InboundCreate) (suffix : String)
    (genKeys : Option (String × String)) (ssRandomPw cuuid cid : String)
    (stream : Json) : HandlerOutcome :=
  let needKeys := d.security == "reality" && d.reality_private_key == "" &&
    d.reality_public_key == ""
  let tag := d.protocol ++ "-" ++ toString d.port ++ "-" ++ suffix
  if needKeys && genKeys.isNone then
    { db := db, restarts := 0,
      result := .error "Failed to generate Reality keys. Check xray binary." }
  else
    let keys := genKeys.getD ("", "")
    let d2 := if needKeys then
                { d with reality_private_key := keys.1, reality_public_key := keys.2 }
              else d
    let settings := build_protocol_settings d2 ssRandomPw
    let sniff := buildSniffing d2
    let remark := if d2.country ≠ "" then
                    if d2.remark ≠ "" then (d2.country ++ " " ++ d2.remark).trim
                    else d2.country
                  else d2.remark
    if db.inbounds.any (fun ib => ib.tag == tag) then
      { db := db, restarts := 0, result := .error ("Tag conflict: " ++ tag) }
    else
      let newId := freshInboundId db
      let ib : Inbound :=
        { id := newId, tag := tag, protocol := d2.protocol, listen := d2.listen,
          port := d2.port, settings := settings, stream_settings := stream,
          sniffing := some sniff, allocate := none, enabled := true,
          remark := remark }
      let db1 := { db with inbounds := db.inbounds ++ [ib] }
      let db2 :=
        if d2.protocol ≠ "shadowsocks" then
          { db1 with clients := db1.clients ++
              [{ id := cid, inbound_id := newId,
                 email := if d2.client_name == "" then "default-user" else d2.client_name,
                 uuid := cuuid,
                 flow := if d2.protocol == "vless" then d2.flow else "",
                 enabled := true, expiry_time := 0, traffic_limit := 0,
                 upload := 0, download := 0, ip_limit := 0 }] }
        else db1
      { db := db2, restarts := 1, result := .ok newId }

/-!  Observations on the emitted document, used to state the claims. -/

/-- The `clients` array embedded in one emitted inbound's settings
(empty when the settings object has no `clients` list). -/
def clientsArrOf (ic : InboundCfg) : List Json :=
  match getField ic.settings "clients" with
  | some (.arr xs) => xs
  | _ => []

/-- The credential carried by one emitted client object: its `id` field for
vless/vmess, its `password` field for trojan. -/
def credentialOf (j : Json) : List String :=
  match j with
  | .obj fs =>
      (match getField fs "id" with
       | some (.str s) => [s]
       | _ =>
         match getField fs "password" with
         | some (.str s) => [s]
         | _ => [])
  | _ => []

/-- Concatenated image of a list under a list-valued map. -/
def joinMap (f : α → List β) : List α → List β
  | [] => []
  | a :: l => f a ++ joinMap f l

/-- All client credentials embedded anywhere in the emitted inbounds array. -/
def emittedCredentials (cfg : Config) : List String :=
  joinMap (fun ic => joinMap credentialOf (clientsArrOf ic)) cfg.inbounds

/-- The uuids of the enabled clients of the enabled inbounds, in synthesis
order — the population the spec says is embedded. -/
def enabledClientUuids (db : Db) : List String :=
  joinMap (fun ib => (enabledClientsOf db ib).map (fun c => c.uuid))
    (db.inbounds.filter (fun ib => ib.enabled))

/-- The `tag` field of an emitted outbound entry, when it is an object with a
string tag. -/
def outboundTag (j : Json) : Option String :=
  match j with
  | .obj fs =>
      (match getField fs "tag" with
       | some (.str s) => some s
       | _ => none)
  | _ => none

/-!  Helper lemmas. -/

theorem getField_setField (fs : List (String × Json)) (k : String) (v : Json) :
    getField (setField fs k v) k = some v := by
  induction fs with
  | nil => simp [setField, getField, List.find?]
  | cons kv rest ih =>
      by_cases h : kv.1 == k
      · simp [setField, h, getField, List.find?]
      · simp only [setField, h, if_false, Bool.false_eq_true]
        simpa [getField, List.find?, h] using ih

theorem joinMap_append (f : α → List β) (l1 l2 : List α) :
    joinMap f (l1 ++ l2) = joinMap f l1 ++ joinMap f l2 := by
  induction l1 with
  | nil => simp [joinMap]
  | cons a l ih => simp [joinMap, ih]

theorem joinMap_map (f : α → β) (g : β → List γ) (l : List α) :
    joinMap g (l.map f) = joinMap (fun a => g (f a)) l := by
  induction l with
  | nil => simp [joinMap]
  | cons a l ih => simp [joinMap, ih]

theorem joinMap_congr {f g : α → List β} {l : List α}
    (h : ∀ a ∈ l, f a = g a) : joinMap f l = joinMap g l := by
  induction l with
  | nil => simp [joinMap]
  | cons a l ih =>
      simp only [joinMap, h a (List.mem_cons_self a l)]
      rw [ih (fun a ha => h a (List.mem_cons_of_mem _ ha))]

theorem joinMap_singleton (f : α → β) (l : List α) :
    joinMap (fun a => [f a]) l = l.map f := by
  induction l with
  | nil => simp [joinMap]
  | cons a l ih => simp [joinMap, ih]

theorem zip_map_self (f : α → α) (l : List α) :
    ∀ p ∈ l.zip (l.map f), p.2 = f p.1 := by
  induction l with
  | nil => simp
  | cons a l ih =>
      intro p hp
      rcases List.mem_cons.mp hp with h | h
      · rw [h]
      · exact ih p h

theorem mergeOutbounds_filter (obs : List Json)
    (hobj : ∀ j ∈ obs, ∃ fs, j = Json.obj fs) :
    mergeOutbounds obs = obs.filter (fun j =>
      match j with
      | .obj fs => !hasBaselineTag fs
      | _ => true) := by
  induction obs with
  | nil => rfl
  | cons j rest ih =>
      rcases hobj j (List.mem_cons_self j rest) with ⟨fs, rfl⟩
      have ih2 := ih (fun a ha => hobj a (List.mem_cons_of_mem _ ha))
      by_cases h : hasBaselineTag fs
      · simp [mergeOutbounds, h, List.filter, ih2]
      · simp [mergeOutbounds, h, List.filter, ih2]

/-- Helper: a client selected by the pass whose disable condition holds ends
up with `enabled=false` in every row carrying its id (the UPDATE is keyed on
the id column). -/
theorem disabled_after_pass (now : Int) (db : Db) (c : Client)
    (hc : c ∈ db.clients) (hen : c.enabled = true)
    (hd : shouldDisable now c = true) :
    ∀ c2 ∈ (check_and_disable_clients now db).db.clients,
      c2.id = c.id → c2.enabled = false := by
  intro c2 hc2 hid
  simp only [check_and_disable_clients] at hc2
  rcases List.mem_map.mp hc2 with ⟨c0, hc0, hf⟩
  have hmem : c.id ∈ (db.clients.filter
      (fun x => x.enabled && shouldDisable now x)).map (fun x => x.id) :=
    List.mem_map_of_mem _ (List.mem_filter.mpr ⟨hc, by simp [hen, hd]⟩)
  by_cases hcont : ((db.clients.filter
      (fun x => x.enabled && shouldDisable now x)).map (fun x => x.id)).contains c0.id
  · rw [if_pos hcont] at hf
    rw [← hf]
  · rw [if_neg hcont] at hf
    have hid0 : c0.id = c.id := by rw [hf]; exact hid
    rw [hid0] at hcont
    exact absurd (List.elem_iff.mpr hmem) hcont

/-- C2: in one reconciler pass at time `now`, an enabled client is disabled
when `traffic_limit>0` and `upload+download >= traffic_limit` (disabled at
exact equality, a >= comparison), is disabled when `expiry_time>0` and
`now > expiry_time`, and remains enabled when `now == expiry_time` (strict >
comparison) provided its quota condition does not hold. -/
theorem C2_reconciler_boundaries (now : Int) (db : Db) (c : Client)
    (hc : c ∈ db.clients) (hen : c.enabled = true) :
    (0 < c.traffic_limit → c.traffic_limit ≤ c.upload + c.download →
      ∀ c2 ∈ (check_and_disable_clients now db).db.clients,
        c2.id = c.id → c2.enabled = false) ∧
    (0 < c.expiry_time → c.expiry_time < now →
      ∀ c2 ∈ (check_and_disable_clients now db).db.clients,
        c2.id = c.id → c2.enabled = false) ∧
    (now = c.expiry_time →
      ¬(0 < c.traffic_limit ∧ c.traffic_limit ≤ c.upload + c.download) →
      (∀ c2 ∈ db.clients, c2.id = c.id → c2 = c) →
      c ∈ (check_and_disable_clients now db).db.clients) := by
  refine ⟨?_, ?_, ?_⟩
  · intro hq1 hq2
    exact disabled_after_pass now db c hc hen (by simp [shouldDisable]; omega)
  · intro he1 he2
    exact disabled_after_pass now db c hc hen (by simp [shouldDisable]; omega)
  · intro hnow hq huniq
    have hsd : shouldDisable now c = false := by
      simp [shouldDisable]
      omega
    have hids : c.id ∉ (db.clients.filter
        (fun x => x.enabled && shouldDisable now x)).map (fun x => x.id) := by
      intro hmem
      rcases List.mem_map.mp hmem with ⟨c0, hc0, hc0id⟩
      have hc0m := List.mem_of_mem_filter hc0
      have hc0p := List.of_mem_filter hc0
      have : c0 = c := huniq c0 hc0m hc0id
      subst this
      rw [hsd] at hc0p
      simp at hc0p
    have hcont : ¬ (((db.clients.filter
        (fun x => x.enabled && shouldDisable now x)).map
          (fun x => x.id)).contains c.id = true) :=
      fun h => hids (List.elem_iff.mp h)
    simp only [check_and_disable_clients]
    refine List.mem_map.mpr ⟨c, hc, ?_⟩
    rw [if_neg hcont]

/-- C3: the reconciler pass never re-enables and never deletes: row count and
ids are preserved, positionally each row keeps its id, a row disabled before
the pass is still disabled after it, and a row enabled after the pass was
already enabled before it. -/
theorem C3_reconciler_monotone (now : Int) (db : Db) :
    (check_and_disable_clients now db).db.clients.length = db.clients.length ∧
    (check_and_disable_clients now db).db.clients.map (fun c => c.id) =
      db.clients.map (fun c => c.id) ∧
    ∀ p ∈ db.clients.zip (check_and_disable_clients now db).db.clients,
      p.2.id = p.1.id ∧ (p.1.enabled = false → p.2.enabled = false) ∧
      (p.2.enabled = true → p.1.enabled = true) := by
  refine ⟨?_, ?_, ?_⟩
  · simp [check_and_disable_clients]
  · simp only [check_and_disable_clients, List.map_map]
    apply List.map_congr_left
    intro a _
    simp only [Function.comp_apply]
    by_cases h : ((db.clients.filter
        (fun c => c.enabled && shouldDisable now c)).map
          (fun c => c.id)).contains a.id = true
    · rw [if_pos h]
    · rw [if_neg h]
  · intro p hp
    simp only [check_and_disable_clients] at hp
    have h2 := zip_map_self (fun c =>
      if ((db.clients.filter
          (fun c => c.enabled && shouldDisable now c)).map
            (fun c => c.id)).contains c.id = true then
        { c with enabled := false } else c) db.clients p hp
    rw [h2]
    dsimp only
    by_cases h : ((db.clients.filter
        (fun c => c.enabled && shouldDisable now c)).map
          (fun c => c.id)).contains p.1.id = true
    · rw [if_pos h]
      exact ⟨rfl, fun _ => rfl, fun hb => absurd hb (by simp)⟩
    · rw [if_neg h]
      exact ⟨rfl, fun hb => hb, fun hb => hb⟩

/-- C4: all clients whose condition holds are disabled in the same pass, and
the pass triggers exactly one restart when at least one client was disabled
and zero restarts otherwise. -/
theorem C4_batch_single_restart (now : Int) (db : Db) :
    (∀ c ∈ db.clients, c.enabled = true → shouldDisable now c = true →
      ∀ c2 ∈ (check_and_disable_clients now db).db.clients,
        c2.id = c.id → c2.enabled = false) ∧
    (check_and_disable_clients now db).restarts =
      (if db.clients.any (fun c => c.enabled && shouldDisable now c) then 1 else 0) := by
  constructor
  · intro c hc hen hd
    exact disabled_after_pass now db c hc hen hd
  · simp only [check_and_disable_clients]
    rcases hfe : db.clients.filter (fun c => c.enabled && shouldDisable now c)
      with _ | ⟨a, rest⟩
    · have hany : db.clients.any (fun c => c.enabled && shouldDisable now c) = false := by
        rw [← Bool.not_eq_true]
        intro hany
        rcases List.any_eq_true.mp hany with ⟨a, ha, hpa⟩
        have ham : a ∈ db.clients.filter (fun c => c.enabled && shouldDisable now c) :=
          List.mem_filter.mpr ⟨ha, hpa⟩
        rw [hfe] at ham
        exact absurd ham (List.not_mem_nil a)
      rw [hfe, hany]
      simp
    · have hany : db.clients.any (fun c => c.enabled && shouldDisable now c) = true := by
        apply List.any_eq_true.mpr
        have ham : a ∈ db.clients.filter (fun c => c.enabled && shouldDisable now c) := by
          rw [hfe]
          exact List.mem_cons_self a rest
        rcases List.mem_filter.mp ham with ⟨ham1, ham2⟩
        exact ⟨a, ham1, ham2⟩
      rw [hfe, hany]
      simp

/-- C9: with the binary absent `start_xray` fails and no handle is tracked,
whatever the spawn oracle would have done; with the binary present but the
spawn raising, the exception is caught, the failure is returned and the
handle stays cleared; and `/api/xray/restart` reports the same boolean as
`success` without throwing (the embedding is a total function). -/
theorem C9_supervisor_failures (s : Option Nat) (m : String) :
    (∀ spawn, start_xray false spawn s = (none, false)) ∧
    start_xray true (SpawnOutcome.err m) s = (none, false) ∧
    (∀ spawn, api_xray_restart false spawn s = (none, false)) ∧
    api_xray_restart true (SpawnOutcome.err m) s = (none, false) :=
  ⟨fun _ => rfl, rfl, fun _ => rfl, rfl⟩

/-- Sample client exactly at its quota boundary (`upload+download = limit`). -/
def cQuota : Client :=
  { id := "a", inbound_id := 1, email := "alice", uuid := "uuid-a", flow := "",
    enabled := true, expiry_time := 0, traffic_limit := 100, upload := 60,
    download := 40, ip_limit := 0 }

/-- Sample client whose expiry lies strictly in the past at time 1000. -/
def cExpired : Client :=
  { id := "b", inbound_id := 1, email := "bob", uuid := "uuid-b", flow := "",
    enabled := true, expiry_time := 500, traffic_limit := 0, upload := 0,
    download := 0, ip_limit := 0 }

/-- Sample client exactly at its expiry boundary at time 1000. -/
def cBoundary : Client :=
  { id := "c", inbound_id := 1, email := "carol", uuid := "uuid-c", flow := "",
    enabled := true, expiry_time := 1000, traffic_limit := 0, upload := 0,
    download := 0, ip_limit := 0 }

/-- Sample client already disabled before the pass. -/
def cOff : Client :=
  { id := "d", inbound_id := 1, email := "dan", uuid := "uuid-d", flow := "",
    enabled := false, expiry_time := 0, traffic_limit := 0, upload := 0,
    download := 0, ip_limit := 0 }

/-- Reconciler sample state: two clients past their thresholds, one at the
expiry boundary, one already disabled. -/
def dbRec : Db :=
  { inbounds := [], clients := [cQuota, cExpired, cBoundary, cOff], kv := [],
    custom_routing_rules := .empty, custom_dns := .empty, custom_outbounds := .empty }

/-- Reconciler sample state where no enabled client meets a condition. -/
def dbRecNone : Db :=
  { inbounds := [], clients := [cBoundary, cOff], kv := [],
    custom_routing_rules := .empty, custom_dns := .empty, custom_outbounds := .empty }

/-- Witness for C2 at time 1000 on `dbRec`. -/
theorem C2_reconciler_boundaries_witness :
    ((check_and_disable_clients 1000 dbRec).db.clients.all
      (fun c2 => c2.id != "a" || c2.enabled == false)) = true ∧
    ((check_and_disable_clients 1000 dbRec).db.clients.all
      (fun c2 => c2.id != "b" || c2.enabled == false)) = true ∧
    cBoundary ∈ (check_and_disable_clients 1000 dbRec).db.clients := by
  have h1 := C2_reconciler_boundaries 1000 dbRec cQuota (by decide) rfl
  have ha := h1.1 (by decide) (by decide)
  have h2 := C2_reconciler_boundaries 1000 dbRec cExpired (by decide) rfl
  have hb := h2.2.1 (by decide) (by decide)
  have h3 := C2_reconciler_boundaries 1000 dbRec cBoundary (by decide) rfl
  have hcm := h3.2.2 rfl (by decide) (by decide)
  refine ⟨?_, ?_, hcm⟩
  · rw [List.all_eq_true]
    intro c2 hc2
    by_cases hid : c2.id = "a"
    · simp [ha c2 hc2 hid, hid]
    · simp [hid]
  · rw [List.all_eq_true]
    intro c2 hc2
    by_cases hid : c2.id = "b"
    · simp [hb c2 hc2 hid, hid]
    · simp [hid]

/-- Witness for C3 at time 1000 on `dbRec`. -/
theorem C3_reconciler_monotone_witness :
    (check_and_disable_clients 1000 dbRec).db.clients.length =
      dbRec.clients.length ∧
    (check_and_disable_clients 1000 dbRec).db.clients.map (fun c => c.id) =
      dbRec.clients.map (fun c => c.id) ∧
    cOff.enabled = false := by
  have h := C3_reconciler_monotone 1000 dbRec
  have hp := h.2.2 (cOff, cOff) (by decide)
  exact ⟨h.1, h.2.1, hp.2.1 rfl⟩

/-- Witness for C4: one restart on `dbRec` even though two clients crossed
their thresholds, zero restarts on `dbRecNone`, and the quota client is
disabled in the same pass. -/
theorem C4_batch_single_restart_witness :
    (check_and_disable_clients 1000 dbRec).restarts = 1 ∧
    (check_and_disable_clients 1000 dbRecNone).restarts = 0 ∧
    ((check_and_disable_clients 1000 dbRec).db.clients.all
      (fun c2 => c2.id != "b" || c2.enabled == false)) = true := by
  have h := C4_batch_single_restart 1000 dbRec
  have h0 := C4_batch_single_restart 1000 dbRecNone
  refine ⟨?_, ?_, ?_⟩
  · rw [h.2]; decide
  · rw [h0.2]; decide
  · have hb := h.1 cExpired (by decide) rfl (by decide)
    rw [List.all_eq_true]
    intro c2 hc2
    by_cases hid : c2.id = "b"
    · simp [hb c2 hc2 hid, hid]
    · simp [hid]

/-- Helper: the outbounds member when the custom setting parsed to a list. -/
theorem outboundsOf_parsed_arr (db : Db) (obs : List Json)
    (hset : db.custom_outbounds = JsonSetting.parsed (Json.arr obs)) :
    outboundsOf db = baselineOutbounds ++ mergeOutbounds obs := by
  unfold outboundsOf
  rw [hset]

/-- C10 (implicit): the used-tag set for the custom-outbound merge is the
fixed baseline pair `direct`/`blocked` and is never extended during the loop,
so every supplied dict entry with a non-baseline tag is appended — entries
repeating the same non-baseline tag included — and the synthesized document
can carry duplicate outbound tags. -/
theorem C10_duplicate_outbound_tags (db : Db) (obs : List Json)
    (hset : db.custom_outbounds = JsonSetting.parsed (Json.arr obs))
    (hobj : ∀ j ∈ obs, ∃ fs, j = Json.obj fs) :
    (xrayConfigOf db).outbounds =
      baselineOutbounds ++ obs.filter (fun j =>
        match j with
        | .obj fs => !hasBaselineTag fs
        | _ => true) ∧
    (∀ t : String, t ≠ "direct" → t ≠ "blocked" →
      (xrayConfigOf db).outbounds.countP (fun j => outboundTag j == some t) =
        obs.countP (fun j => outboundTag j == some t)) := by
  have hout : (xrayConfigOf db).outbounds =
      baselineOutbounds ++ obs.filter (fun j =>
        match j with
        | .obj fs => !hasBaselineTag fs
        | _ => true) := by
    have h0 : (xrayConfigOf db).outbounds = outboundsOf db := rfl
    rw [h0, outboundsOf_parsed_arr db obs hset, mergeOutbounds_filter obs hobj]
  refine ⟨hout, ?_⟩
  intro t ht1 ht2
  have ht1s : ¬ ("direct" = t) := fun h => ht1 h.symm
  have ht2s : ¬ ("blocked" = t) := fun h => ht2 h.symm
  rw [hout, List.countP_append]
  have hbase : baselineOutbounds.countP (fun j => outboundTag j == some t) = 0 := by
    simp [baselineOutbounds, List.countP_cons, outboundTag, getField,
      List.find?, ht1s, ht2s]
  rw [hbase, Nat.zero_add, List.countP_filter]
  apply List.countP_congr
  intro j hj
  rcases hobj j hj with ⟨fs, rfl⟩
  dsimp only
  constructor
  · intro h
    exact (Bool.and_eq_true _ _ |>.mp h).1
  · intro hq
    refine (Bool.and_eq_true _ _).mpr ⟨hq, ?_⟩
    simp only [outboundTag] at hq
    rcases hg : getField fs "tag" with _ | v
    · rw [hg] at hq
      simp at hq
    · rcases v with s | n | b | _ | xs | gs
      case str =>
        rw [hg] at hq
        simp only [beq_iff_eq, Option.some.injEq] at hq
        subst hq
        simp only [hasBaselineTag, hg, Bool.not_eq_true']
        simp [ht1, ht2]
      all_goals (rw [hg] at hq; simp at hq)

/-- Operator-supplied outbound list with a duplicated non-baseline tag. -/
def obsDup : List Json :=
  [Json.obj [("tag", .str "warp"), ("protocol", .str "socks")],
   Json.obj [("tag", .str "warp"), ("protocol", .str "freedom")]]

/-- Synthesis sample state for the custom-outbound merge. -/
def dbDup : Db :=
  { inbounds := [], clients := [], kv := [],
    custom_routing_rules := .empty, custom_dns := .empty,
    custom_outbounds := .parsed (.arr obsDup) }

/-- Witness for C10: both entries tagged `warp` are appended, so the emitted
document carries the tag twice. -/
theorem C10_duplicate_outbound_tags_witness :
    (xrayConfigOf dbDup).outbounds.countP
      (fun j => outboundTag j == some "warp") = 2 := by
  have h := C10_duplicate_outbound_tags dbDup obsDup rfl
    (by
      intro j hj
      rcases List.mem_cons.mp hj with h1 | h1
      · exact ⟨_, h1⟩
      · rcases List.mem_cons.mp h1 with h2 | h2
        · exact ⟨_, h2⟩
        · exact absurd h2 (List.not_mem_nil j))
  rw [h.2 "warp" (by decide) (by decide)]
  decide

/-- Synthesis sample state used for the C7 counterexample. -/
def dbC7 : Db :=
  { inbounds := [], clients := [], kv := [],
    custom_routing_rules := .empty, custom_dns := .empty,
    custom_outbounds := .empty }

/-- C7 counterexample: the claim states that synthesis performs no write to
durable storage and that the caller writes the document as a separate step;
but `generate_xray_config` itself dumps the document to the config path
before returning (lines 255-257 of main.py), so its write list is non-empty
already on the empty database. -/
theorem C7_counterexample : ¬ ((generate_xray_config dbC7).writes = []) := by
  intro h
  have hlen := congrArg List.length h
  simp [generate_xray_config] at hlen

/-- C7 amended: synthesis computes the document as a deterministic function
of the database state, and performs exactly one durable-storage write — the
computed document itself, to the fixed config path — as its own final step;
writing is not left to the caller. -/
theorem C7_synthesis_writes_once (db : Db) :
    (generate_xray_config db).config = xrayConfigOf db ∧
    (generate_xray_config db).writes.length = 1 ∧
    ∀ w ∈ (generate_xray_config db).writes,
      w.path = xrayConfigPath ∧ w.doc = (generate_xray_config db).config := by
  refine ⟨rfl, rfl, ?_⟩
  intro w hw
  rcases List.mem_singleton.mp hw with rfl
  exact ⟨rfl, rfl⟩

/-- Witness for the amended C7 on the sample state. -/
theorem C7_synthesis_writes_once_witness :
    (generate_xray_config dbC7).writes.length = 1 ∧
    ({ path := xrayConfigPath, doc := xrayConfigOf dbC7 } : FileWrite).path =
      xrayConfigPath := by
  have h := C7_synthesis_writes_once dbC7
  exact ⟨h.2.1, (h.2.2 _ (List.mem_singleton.mpr rfl)).1⟩

/-- Settings sample state for the C6 counterexample. -/
def dbSet : Db :=
  { inbounds := [], clients := [], kv := [],
    custom_routing_rules := .empty, custom_dns := .empty,
    custom_outbounds := .empty }

/-- A settings update touching the routing-affecting key `block_bittorrent`. -/
def dSet : SettingsUpdate := { block_bittorrent := some false }

/-- The request body of the first `PUT /api/inbounds/id` handler
(`api_update_inbound`, lines 786-823 of main.py): every field optional, the
JSON text columns stored verbatim — embedded, as everywhere, in parsed
form. -/
structure InboundUpdate where
  listen : Option String := none
  port : Option Nat := none
  remark : Option String := none
  settings : Option (List (String × Json)) := none
  stream_settings : Option Json := none
  sniffing : Option Json := none

/-- The embedding of `api_update_inbound`: 404 when the id is absent (no
write, no restart); otherwise overwrite the supplied columns of the
addressed row, commit, and call `restart_xray()` once — the restart runs
even when the request supplied no field. -/
def api_update_inbound (db : Db) (iid : Nat) (d : InboundUpdate) :
    Option (Db × Nat) :=
  match db.inbounds.find? (fun ib => ib.id == iid) with
  | none => none
  | some _ =>
      some ({ db with inbounds := db.inbounds.map (fun ib =>
        if ib.id == iid then
          let ib := match d.listen with
                    | some v => { ib with listen := v } | none => ib
          let ib := match d.port with
                    | some v => { ib with port := v } | none => ib
          let ib := match d.remark with
                    | some v => { ib with remark := v } | none => ib
          let ib := match d.settings with
                    | some v => { ib with settings := v } | none => ib
          let ib := match d.stream_settings with
                    | some v => { ib with stream_settings := v } | none => ib
          match d.sniffing with
          | some v => { ib with sniffing := some v } | none => ib
        else ib) }, 1)

/-- The per-client object rebuilt by `api_edit_inbound` (lines 883-895 of
main.py): unlike synthesis it keeps vless `flow` only when non-empty, and it
embeds every owned client, disabled ones included. -/
def editClientObj (protocol : String) (c : Client) : Json :=
  if protocol == "vless" then
    Json.obj ([("id", .str c.uuid), ("email", .str c.email)] ++
      (if c.flow ≠ "" then [("flow", .str c.flow)] else []))
  else if protocol == "vmess" then
    Json.obj [("id", .str c.uuid), ("email", .str c.email), ("alterId", .num 0)]
  else
    Json.obj [("password", .str c.uuid), ("email", .str c.email)]

/-- The sniffing blob built by `api_edit_inbound`: `destOverride` only when
the override text is non-empty. -/
def buildSniffingEdit (d : InboundCreate) : Json :=
  let base := [("enabled", Json.bool d.sniffing_enabled)]
  let base :=
    if d.sniffing_dest_override ≠ "" then
      base ++ [("destOverride",
        Json.arr ((splitTrim d.sniffing_dest_override).map Json.str))]
    else base
  Json.obj (if d.sniffing_route_only then
    base ++ [("routeOnly", Json.bool true)] else base)

/-- The embedding of the second `PUT /api/inbounds/id` handler
(`api_edit_inbound`, lines 866-904 of main.py): 404 when the id is absent;
otherwise rebuild the settings blob from the full creation request,
re-embed all owned clients for the client-list protocols, overwrite
protocol/port/listen/settings/stream/sniffing/remark, commit, and call
`restart_xray()` once.  As in `api_create_inbound`, `ssRandomPw` and
`stream` stand for the shadowsocks password draw and
`_build_stream_settings`. -/
def api_edit_inbound (db : Db) (iid : Nat) (d : InboundCreate)
    (ssRandomPw : String) (stream : Json) : Option (Db × Nat) :=
  match db.inbounds.find? (fun ib => ib.id == iid) with
  | none => none
  | some _ =>
      let clientsRows := db.clients.filter (fun c => c.inbound_id == iid)
      let settings := build_protocol_settings d ssRandomPw
      let settings :=
        if d.protocol == "vless" || d.protocol == "vmess" then
          setField settings "clients"
            (Json.arr (clientsRows.map (editClientObj d.protocol)))
        else if d.protocol == "trojan" then
          setField settings "clients"
            (Json.arr (clientsRows.map (editClientObj d.protocol)))
        else settings
      let sniff := buildSniffingEdit d
      some ({ db with inbounds := db.inbounds.map (fun ib =>
        if ib.id == iid then
          { ib with
              protocol := d.protocol
              port := d.port
              listen := d.listen
              settings := settings
              stream_settings := stream
              sniffing := some sniff
              remark := d.remark }
        else ib) }, 1)

/-- The request body of `PUT /api/clients/id`; as in `ClientCreate`,
`traffic_limit_bytes` carries the handler-side GB-to-bytes conversion. -/
structure ClientUpdate where
  email : Option String := none
  flow : Option String := none
  enabled : Option Bool := none
  expiry_days : Option Int := none
  traffic_limit_bytes : Option Int := none
  ip_limit : Option Int := none

/-- The embedding of `api_update_client` (lines 1075-1103 of main.py): 404
when the client is absent; otherwise overwrite the supplied columns of the
addressed row (expiry from now plus the requested days when positive, zero
otherwise), commit, and call `restart_xray()` once. -/
def api_update_client (db : Db) (cid : String) (d : ClientUpdate)
    (nowMs : Int) : Option (Db × Nat) :=
  match db.clients.find? (fun c => c.id == cid) with
  | none => none
  | some _ =>
      some ({ db with clients := db.clients.map (fun c =>
        if c.id == cid then
          let c := match d.email with
                   | some v => { c with email := v } | none => c
          let c := match d.flow with
                   | some v => { c with flow := v } | none => c
          let c := match d.enabled with
                   | some v => { c with enabled := v } | none => c
          let c := match d.expiry_days with
                   | some days => { c with expiry_time :=
                       if days > 0 then nowMs + days * 86400000 else 0 }
                   | none => c
          let c := match d.traffic_limit_bytes with
                   | some v => { c with traffic_limit := v } | none => c
          match d.ip_limit with
          | some v => { c with ip_limit := v } | none => c
        else c) }, 1)

/-- C6 counterexample: the claim requires the settings-update endpoint to
restart the engine after a routing-affecting write such as
`block_bittorrent`, but `api_update_settings` commits the write and returns
the note "Restart xray to apply xray-related changes" without invoking any
restart — its restart count is 0, not at least 1. -/
theorem C6_counterexample :
    dSet.block_bittorrent = some false ∧
    ¬ (1 ≤ (api_update_settings dbSet dSet).2) := by
  exact ⟨rfl, by decide⟩

set_option maxHeartbeats 1000000 in
/-- C6 amended: every inbound and client mutating operation — create
(`api_create_inbound`), edit (`api_update_inbound`, `api_edit_inbound`,
`api_update_client`), delete (`api_delete_inbound`), enable-toggle
(`api_toggle_inbound`) and client add (`api_add_client`) — triggers exactly
one synchronous restart after its write commits (none on its 404/error
path), while the settings-update endpoint triggers none (it asks the
operator to restart) and the traffic-counter reset triggers none. -/
theorem C6_restart_discipline :
    (∀ db iid db2 nv n, api_toggle_inbound db iid = some (db2, nv, n) → n = 1) ∧
    (∀ db d suffix genKeys pw cu cid st idn,
      (api_create_inbound db d suffix genKeys pw cu cid st).result = Except.ok idn →
      (api_create_inbound db d suffix genKeys pw cu cid st).restarts = 1) ∧
    (∀ db iid d r, api_update_inbound db iid d = some r → r.2 = 1) ∧
    (∀ db iid d pw st r, api_edit_inbound db iid d pw st = some r → r.2 = 1) ∧
    (∀ db cid d now r, api_update_client db cid d now = some r → r.2 = 1) ∧
    (∀ db iid, (api_delete_inbound db iid).2 = 1) ∧
    (∀ db iid d now cu cid r, api_add_client db iid d now cu cid = some r → r.2 = 1) ∧
    (∀ db d, (api_update_settings db d).2 = 0) ∧
    (∀ db cid, (api_reset_client_traffic db cid).2 = 0) := by
  refine ⟨?_, ?_, ?_, ?_, ?_, ?_, ?_, ?_, ?_⟩
  · intro db iid db2 nv n h
    simp only [api_toggle_inbound] at h
    rcases hf : db.inbounds.find? (fun ib => ib.id == iid) with _ | row
    · rw [hf] at h
      exact absurd h (by simp)
    · rw [hf] at h
      simp only [Option.some.injEq, Prod.mk.injEq] at h
      exact h.2.2.symm
  · intro db d suffix genKeys pw cu cid st idn h
    simp only [api_create_inbound] at h ⊢
    by_cases hg : (((d.security == "reality" && d.reality_private_key == "" &&
        d.reality_public_key == "") && genKeys.isNone) = true)
    · rw [if_pos hg] at h
      exact absurd h (by simp)
    · rw [if_neg hg] at h ⊢
      by_cases ha : (db.inbounds.any (fun ib =>
          ib.tag == d.protocol ++ "-" ++ toString d.port ++ "-" ++ suffix) = true)
      · rw [if_pos ha] at h
        exact absurd h (by simp)
      · rw [if_neg ha]
  · intro db iid d r h
    simp only [api_update_inbound] at h
    rcases hf : db.inbounds.find? (fun ib => ib.id == iid) with _ | row
    · rw [hf] at h
      exact absurd h (by simp)
    · rw [hf] at h
      simp only [Option.some.injEq] at h
      rw [← h]
  · intro db iid d pw st r h
    simp only [api_edit_inbound] at h
    rcases hf : db.inbounds.find? (fun ib => ib.id == iid) with _ | row
    · rw [hf] at h
      exact absurd h (by simp)
    · rw [hf] at h
      simp only [Option.some.injEq] at h
      rw [← h]
  · intro db cid d now r h
    simp only [api_update_client] at h
    rcases hf : db.clients.find? (fun c => c.id == cid) with _ | row
    · rw [hf] at h
      exact absurd h (by simp)
    · rw [hf] at h
      simp only [Option.some.injEq] at h
      rw [← h]
  · intro db iid
    rfl
  · intro db iid d now cu cid r h
    simp only [api_add_client] at h
    rcases hf : db.inbounds.find? (fun ib => ib.id == iid) with _ | row
    · rw [hf] at h
      exact absurd h (by simp)
    · rw [hf] at h
      simp only [Option.some.injEq] at h
      rw [← h]
  · intro db d
    rfl
  · intro db cid
    rfl

/-- A minimal inbound row used by the settings witnesses. -/
def ibTcp : Inbound :=
  { id := 1, tag := "vless-443-aaaaaa", protocol := "vless", listen := "",
    port := 443,
    settings := [("clients", .arr []), ("decryption", .str "none")],
    stream_settings := Json.obj [("network", .str "tcp"), ("security", .str "none")],
    sniffing := some (Json.obj [("enabled", .bool true)]),
    allocate := none, enabled := true, remark := "" }

/-- Sample state holding one enabled inbound. -/
def dbOne : Db :=
  { inbounds := [ibTcp], clients := [], kv := [],
    custom_routing_rules := .empty, custom_dns := .empty,
    custom_outbounds := .empty }

/-- Full-edit request used by the C6 witness. -/
def dEdit : InboundCreate := { protocol := "vless", port := 443 }

/-- Witness for the amended C6 on concrete calls: toggle, both inbound edit
handlers and the client edit handler each restart once, delete restarts
once, settings update and traffic reset restart zero times. -/
theorem C6_restart_discipline_witness :
    (api_toggle_inbound dbOne 1).map (fun r => r.2.2) = some 1 ∧
    (api_update_inbound dbOne 1 { remark := some "r" }).map (fun r => r.2) = some 1 ∧
    (api_edit_inbound dbOne 1 dEdit "pw" (Json.obj [])).map (fun r => r.2) = some 1 ∧
    (api_update_client dbRec "a" { email := some "e" } 0).map (fun r => r.2) = some 1 ∧
    (api_delete_inbound dbOne 1).2 = 1 ∧
    (api_update_settings dbSet dSet).2 = 0 ∧
    (api_reset_client_traffic dbSet "a").2 = 0 := by
  have h := C6_restart_discipline
  have hr : api_toggle_inbound dbOne 1 =
      some ({ dbOne with inbounds := [{ ibTcp with enabled := false }] },
            false, 1) := rfl
  have ht := h.1 dbOne 1 _ _ _ hr
  obtain ⟨ru, hu⟩ := Option.isSome_iff_exists.mp
    (show (api_update_inbound dbOne 1 { remark := some "r" }).isSome = true from rfl)
  have htu := h.2.2.1 dbOne 1 { remark := some "r" } ru hu
  obtain ⟨re, he⟩ := Option.isSome_iff_exists.mp
    (show (api_edit_inbound dbOne 1 dEdit "pw" (Json.obj [])).isSome = true from rfl)
  have hte := h.2.2.2.1 dbOne 1 dEdit "pw" (Json.obj []) re he
  obtain ⟨rc, hc⟩ := Option.isSome_iff_exists.mp
    (show (api_update_client dbRec "a" { email := some "e" } 0).isSome = true from rfl)
  have htc := h.2.2.2.2.1 dbRec "a" { email := some "e" } 0 rc hc
  refine ⟨?_, ?_, ?_, ?_, h.2.2.2.2.2.1 dbOne 1,
          h.2.2.2.2.2.2.2.1 dbSet dSet, h.2.2.2.2.2.2.2.2 dbSet "a"⟩
  · rw [hr]
    exact congrArg some ht
  · rw [hu]
    exact congrArg some htu
  · rw [he]
    exact congrArg some hte
  · rw [hc]
    exact congrArg some htc

theorem any_map_self (f : α → β) (p : β → Bool) (l : List α) :
    (l.map f).any p = l.any (fun a => p (f a)) := by
  induction l with
  | nil => rfl
  | cons a l ih => simp [List.any_cons, ih]

theorem countP_map_self (f : α → β) (p : β → Bool) (l : List α) :
    (l.map f).countP p = l.countP (fun a => p (f a)) := by
  induction l with
  | nil => rfl
  | cons a l ih => simp [List.countP_cons, ih]

/-- Helper: a creation call whose Reality guard passes and whose tag is fresh
succeeds, restarts once, and appends exactly one inbound row carrying the
generated tag. -/
theorem api_create_inbound_fresh (db : Db) (d : InboundCreate) (suffix : String)
    (genKeys : Option (String × String)) (pw cu cid : String) (st : Json)
    (hguard : ((d.security == "reality" && d.reality_private_key == "" &&
      d.reality_public_key == "") && genKeys.isNone) = false)
    (hany : db.inbounds.any (fun ib =>
      ib.tag == d.protocol ++ "-" ++ toString d.port ++ "-" ++ suffix) = false) :
    (api_create_inbound db d suffix genKeys pw cu cid st).result =
      Except.ok (freshInboundId db) ∧
    (api_create_inbound db d suffix genKeys pw cu cid st).restarts = 1 ∧
    (api_create_inbound db d suffix genKeys pw cu cid st).db.inbounds.map
        (fun ib => ib.tag) =
      db.inbounds.map (fun ib => ib.tag) ++
        [d.protocol ++ "-" ++ toString d.port ++ "-" ++ suffix] := by
  simp only [api_create_inbound, hguard, Bool.false_eq_true, if_false]
  rw [if_neg (by simp [hany])]
  refine ⟨rfl, rfl, ?_⟩
  split <;> split <;> simp

/-- Helper: a creation call whose Reality guard passes but whose tag already
exists raises the conflict and leaves the store untouched, with no restart. -/
theorem api_create_inbound_conflict (db : Db) (d : InboundCreate) (suffix : String)
    (genKeys : Option (String × String)) (pw cu cid : String) (st : Json)
    (hguard : ((d.security == "reality" && d.reality_private_key == "" &&
      d.reality_public_key == "") && genKeys.isNone) = false)
    (hany : db.inbounds.any (fun ib =>
      ib.tag == d.protocol ++ "-" ++ toString d.port ++ "-" ++ suffix) = true) :
    api_create_inbound db d suffix genKeys pw cu cid st =
      { db := db, restarts := 0,
        result := .error ("Tag conflict: " ++
          (d.protocol ++ "-" ++ toString d.port ++ "-" ++ suffix)) } := by
  simp only [api_create_inbound, hguard, Bool.false_eq_true, if_false]
  rw [if_pos hany]

/-- C8: two creation calls that generate the identical tag: the first
succeeds, the second fails with the conflict error, the store after the
second call is exactly the store after the first (no partial rows, no
restart from the failed call), and exactly one stored inbound carries the
tag. -/
theorem C8_tag_conflict (db : Db) (d : InboundCreate) (suffix : String)
    (genKeys : Option (String × String)) (pw1 pw2 cu1 cu2 cid1 cid2 : String)
    (st1 st2 : Json)
    (hk : (d.security == "reality" && d.reality_private_key == "" &&
           d.reality_public_key == "") = true → genKeys.isSome = true)
    (hfresh : ∀ ib ∈ db.inbounds,
      ib.tag ≠ d.protocol ++ "-" ++ toString d.port ++ "-" ++ suffix) :
    (api_create_inbound db d suffix genKeys pw1 cu1 cid1 st1).result =
      Except.ok (freshInboundId db) ∧
    (api_create_inbound (api_create_inbound db d suffix genKeys pw1 cu1 cid1 st1).db
        d suffix genKeys pw2 cu2 cid2 st2).result =
      Except.error ("Tag conflict: " ++
        (d.protocol ++ "-" ++ toString d.port ++ "-" ++ suffix)) ∧
    (api_create_inbound (api_create_inbound db d suffix genKeys pw1 cu1 cid1 st1).db
        d suffix genKeys pw2 cu2 cid2 st2).db =
      (api_create_inbound db d suffix genKeys pw1 cu1 cid1 st1).db ∧
    (api_create_inbound (api_create_inbound db d suffix genKeys pw1 cu1 cid1 st1).db
        d suffix genKeys pw2 cu2 cid2 st2).restarts = 0 ∧
    (api_create_inbound db d suffix genKeys pw1 cu1 cid1 st1).db.inbounds.countP
      (fun ib => ib.tag == d.protocol ++ "-" ++ toString d.port ++ "-" ++ suffix) = 1 := by
  have hguard : ((d.security == "reality" && d.reality_private_key == "" &&
      d.reality_public_key == "") && genKeys.isNone) = false := by
    cases hn : (d.security == "reality" && d.reality_private_key == "" &&
        d.reality_public_key == "")
    · simp
    · have hs := hk hn
      rcases genKeys with _ | k
      · simp at hs
      · simp
  obtain ⟨hA, hR, hTags⟩ :=
    api_create_inbound_fresh db d suffix genKeys pw1 cu1 cid1 st1 hguard (by
      rw [← Bool.not_eq_true]
      intro h
      rcases List.any_eq_true.mp h with ⟨ib, hib, htag⟩
      exact hfresh ib hib (by simpa using htag))
  have hany2 : ((api_create_inbound db d suffix genKeys pw1 cu1 cid1 st1).db.inbounds.any
      (fun ib => ib.tag == d.protocol ++ "-" ++ toString d.port ++ "-" ++ suffix)) = true := by
    have h1 := congrArg (fun l : List String =>
      l.any (fun s => s == d.protocol ++ "-" ++ toString d.port ++ "-" ++ suffix)) hTags
    dsimp only at h1
    rw [any_map_self] at h1
    rw [h1]
    simp [List.any_append]
  have e2 := api_create_inbound_conflict
    (api_create_inbound db d suffix genKeys pw1 cu1 cid1 st1).db
    d suffix genKeys pw2 cu2 cid2 st2 hguard hany2
  refine ⟨hA, by rw [e2], by rw [e2], by rw [e2], ?_⟩
  have h5 := congrArg (fun l : List String =>
    l.countP (fun s => s == d.protocol ++ "-" ++ toString d.port ++ "-" ++ suffix)) hTags
  dsimp only at h5
  rw [countP_map_self, List.countP_append, countP_map_self] at h5
  have hz : db.inbounds.countP (fun a =>
      a.tag == d.protocol ++ "-" ++ toString d.port ++ "-" ++ suffix) = 0 := by
    rw [List.countP_eq_zero]
    intro ib hib
    simp [hfresh ib hib]
  rw [hz] at h5
  simpa using h5

/-- Creation request used by the C8 witness. -/
def dC8 : InboundCreate := { protocol := "vless", port := 443 }

/-- Witness for C8 on an empty store: the first call stores the inbound with
id 1, the second call triggers no restart, and exactly one stored inbound
carries the generated tag. -/
theorem C8_tag_conflict_witness :
    (api_create_inbound dbSet dC8 "abc123" none "pw" "cu1" "cid1" (Json.obj [])).result =
      Except.ok 1 ∧
    (api_create_inbound
        (api_create_inbound dbSet dC8 "abc123" none "pw" "cu1" "cid1" (Json.obj [])).db
        dC8 "abc123" none "pw2" "cu2" "cid2" (Json.obj [])).restarts = 0 ∧
    (api_create_inbound dbSet dC8 "abc123" none "pw" "cu1" "cid1" (Json.obj [])).db.inbounds.countP
      (fun ib => ib.tag == "vless-443-abc123") = 1 := by
  have h := C8_tag_conflict dbSet dC8 "abc123" none "pw" "pw2" "cu1" "cu2"
    "cid1" "cid2" (Json.obj []) (Json.obj []) (by decide) (by decide)
  exact ⟨h.1, h.2.2.2.1, h.2.2.2.2⟩

/-- Helper: for the three client-list protocols, the credential of the
emitted client object is exactly the stored `uuid` column (the `id` field
for vless/vmess, the `password` field for trojan). -/
theorem credentialOf_clientObj (p : String) (c : Client)
    (hp : isClientProtocol p = true) :
    credentialOf (clientObj p c) = [c.uuid] := by
  simp only [isClientProtocol, Bool.or_eq_true, beq_iff_eq] at hp
  rcases hp with (hp | hp) | hp
  all_goals subst hp
  all_goals rfl

/-- Helper: the clients array emitted for a client-list-protocol inbound is
the projection of exactly its enabled clients. -/
theorem clientsArrOf_clientProtocol (db : Db) (ib : Inbound)
    (hp : isClientProtocol ib.protocol = true) :
    clientsArrOf (inboundCfgOf db ib) =
      (enabledClientsOf db ib).map (clientObj ib.protocol) := by
  unfold inboundCfgOf clientsArrOf
  dsimp only
  rw [if_pos hp, getField_setField]

/-- Helper: the credentials emitted for a client-list-protocol inbound are
the uuids of exactly its enabled clients. -/
theorem emitted_creds_inbound (db : Db) (ib : Inbound)
    (hp : isClientProtocol ib.protocol = true) :
    joinMap credentialOf (clientsArrOf (inboundCfgOf db ib)) =
      (enabledClientsOf db ib).map (fun c => c.uuid) := by
  rw [clientsArrOf_clientProtocol db ib hp, joinMap_map]
  rw [joinMap_congr (fun c _ => credentialOf_clientObj ib.protocol c hp)]
  rw [joinMap_singleton]

/-- Helper: an inbound of any other protocol whose stored settings blob has
no `clients` key emits no credential. -/
theorem emitted_creds_nonclient (db : Db) (ib : Inbound)
    (hp : isClientProtocol ib.protocol = false)
    (hnc : getField ib.settings "clients" = none) :
    joinMap credentialOf (clientsArrOf (inboundCfgOf db ib)) = [] := by
  unfold inboundCfgOf clientsArrOf
  dsimp only
  rw [if_neg (by simp [hp]), hnc]
  rfl

/-- An enabled shadowsocks inbound whose stored settings blob is the one the
panel itself builds (shared method and password, no client list). -/
def ibSS : Inbound :=
  { id := 1, tag := "shadowsocks-8388-x", protocol := "shadowsocks",
    listen := "", port := 8388,
    settings := [("method", .str "chacha20-ietf-poly1305"),
                 ("password", .str "pw"), ("network", .str "tcp,udp")],
    stream_settings := Json.obj [], sniffing := none, allocate := none,
    enabled := true, remark := "" }

/-- An enabled client owned by the shadowsocks inbound. -/
def cSS : Client :=
  { id := "s1", inbound_id := 1, email := "sam", uuid := "uuid-s", flow := "",
    enabled := true, expiry_time := 0, traffic_limit := 0, upload := 0,
    download := 0, ip_limit := 0 }

/-- Synthesis sample: one enabled shadowsocks inbound with one enabled
client. -/
def dbSS : Db :=
  { inbounds := [ibSS], clients := [cSS], kv := [],
    custom_routing_rules := .empty, custom_dns := .empty,
    custom_outbounds := .empty }

/-- C1 counterexample: the claim says the emitted document embeds exactly
the enabled clients of enabled inbounds; but a client added to an enabled
shadowsocks inbound is enabled yet never embedded (the client-list branch of
`generate_xray_config` covers only vless/vmess/trojan), so the emitted
credential list is empty while the enabled-client population is not. -/
theorem C1_counterexample :
    ¬ (emittedCredentials (xrayConfigOf dbSS) = enabledClientUuids dbSS) := by
  decide

/-- C1 amended: for inbounds of the client-list protocols (vless, vmess,
trojan) the emitted document embeds exactly their enabled clients; inbounds
of any other protocol (shadowsocks) embed none of their clients, provided
their stored settings blob carries no `clients` key, as every blob the panel
builds does; and, given tag uniqueness, no disabled inbound's tag appears in
the emitted inbounds array. -/
theorem C1_enabled_only (db : Db)
    (hnc : ∀ ib ∈ db.inbounds, isClientProtocol ib.protocol = false →
      (getField ib.settings "clients").isNone = true) :
    emittedCredentials (xrayConfigOf db) =
      joinMap (fun ib =>
        if isClientProtocol ib.protocol then
          (enabledClientsOf db ib).map (fun c => c.uuid)
        else [])
        (db.inbounds.filter (fun ib => ib.enabled)) ∧
    (∀ ib ∈ db.inbounds, ib.enabled = false → ib.tag ≠ "api-in" →
      (∀ ib2 ∈ db.inbounds, ib2.tag = ib.tag → ib2 = ib) →
      ib.tag ∉ (xrayConfigOf db).inbounds.map (fun ic => ic.tag)) := by
  constructor
  · unfold emittedCredentials
    have hinb : (xrayConfigOf db).inbounds =
        apiInboundCfg ((get_setting db "xray_api_port" "10085").toNat?.getD 0)
          :: (db.inbounds.filter (fun ib => ib.enabled)).map (inboundCfgOf db) := rfl
    rw [hinb]
    simp only [joinMap]
    rw [List.nil_append, joinMap_map]
    apply joinMap_congr
    intro ib hibf
    have hib := List.mem_of_mem_filter hibf
    by_cases hp : isClientProtocol ib.protocol = true
    · rw [if_pos hp]
      exact emitted_creds_inbound db ib hp
    · rw [if_neg hp]
      have hpf : isClientProtocol ib.protocol = false := by
        simpa using hp
      exact emitted_creds_nonclient db ib hpf
        (Option.isNone_iff_eq_none.mp (hnc ib hib hpf))
  · intro ib hib hdis htag huniq hmem
    have hform : (xrayConfigOf db).inbounds.map (fun ic => ic.tag) =
        "api-in" :: (db.inbounds.filter (fun x => x.enabled)).map
          (fun x => x.tag) := by
      have h0 : (xrayConfigOf db).inbounds =
          apiInboundCfg ((get_setting db "xray_api_port" "10085").toNat?.getD 0)
            :: (db.inbounds.filter (fun x => x.enabled)).map (inboundCfgOf db) := rfl
      rw [h0]
      simp only [List.map_cons, List.map_map]
      rfl
    rw [hform] at hmem
    rcases List.mem_cons.mp hmem with h | h
    · exact htag h
    · rcases List.mem_map.mp h with ⟨ib2, hib2f, hib2t⟩
      rcases List.mem_filter.mp hib2f with ⟨hib2, hen2⟩
      have heq2 := huniq ib2 hib2 hib2t
      subst heq2
      rw [hdis] at hen2
      exact absurd hen2 (by simp)

/-- An enabled vless inbound with the settings blob the panel builds. -/
def ibV : Inbound :=
  { id := 2, tag := "vless-443-y", protocol := "vless", listen := "",
    port := 443,
    settings := [("clients", .arr []), ("decryption", .str "none")],
    stream_settings := Json.obj [], sniffing := none, allocate := none,
    enabled := true, remark := "" }

/-- A disabled vmess inbound. -/
def ibOff : Inbound :=
  { id := 3, tag := "vmess-80-z", protocol := "vmess", listen := "",
    port := 80, settings := [("clients", .arr [])],
    stream_settings := Json.obj [], sniffing := none, allocate := none,
    enabled := false, remark := "" }

/-- Enabled client of the vless inbound. -/
def cV1 : Client :=
  { id := "v1", inbound_id := 2, email := "eve", uuid := "uuid-v1", flow := "",
    enabled := true, expiry_time := 0, traffic_limit := 0, upload := 0,
    download := 0, ip_limit := 0 }

/-- Disabled client of the vless inbound. -/
def cV2 : Client :=
  { id := "v2", inbound_id := 2, email := "mallory", uuid := "uuid-v2",
    flow := "", enabled := false, expiry_time := 0, traffic_limit := 0,
    upload := 0, download := 0, ip_limit := 0 }

/-- Enabled client of the disabled inbound. -/
def cW : Client :=
  { id := "w1", inbound_id := 3, email := "walt", uuid := "uuid-w",
    flow := "", enabled := true, expiry_time := 0, traffic_limit := 0,
    upload := 0, download := 0, ip_limit := 0 }

/-- Mixed synthesis sample: shadowsocks, vless and a disabled inbound with
enabled, disabled and orphaned-by-disable clients. -/
def dbMix : Db :=
  { inbounds := [ibSS, ibV, ibOff], clients := [cSS, cV1, cV2, cW], kv := [],
    custom_routing_rules := .empty, custom_dns := .empty,
    custom_outbounds := .empty }

/-- Witness for the amended C1 on the mixed sample: only the enabled vless
client's credential is emitted, and the disabled inbound's tag is absent. -/
theorem C1_enabled_only_witness :
    emittedCredentials (xrayConfigOf dbMix) = ["uuid-v1"] ∧
    "vmess-80-z" ∉ (xrayConfigOf dbMix).inbounds.map (fun ic => ic.tag) := by
  have h := C1_enabled_only dbMix (by decide)
  constructor
  · rw [h.1]
    decide
  · have hmemOff : ibOff ∈ dbMix.inbounds :=
      List.mem_cons_of_mem _ (List.mem_cons_of_mem _ (List.mem_cons_self _ _))
    have huniq : ∀ ib2 ∈ dbMix.inbounds, ib2.tag = ibOff.tag → ib2 = ibOff := by
      intro ib2 h2 ht
      rcases List.mem_cons.mp h2 with rfl | h2a
      · exact absurd ht (by decide)
      · rcases List.mem_cons.mp h2a with rfl | h2b
        · exact absurd ht (by decide)
        · rcases List.mem_cons.mp h2b with rfl | h2c
          · rfl
          · exact absurd h2c (List.not_mem_nil ib2)
    exact h.2 ibOff hmemOff rfl (by decide) huniq

/-- C5: the per-client object emitted for an enabled inbound is the fixed
per-protocol projection — VLESS clients map to id/email/flow, VMess clients
to id/email/alterId=0, Trojan clients to password/email — none of which
carries an expiry or quota field; shadowsocks inbounds get no client list
from synthesis (their settings blob, the shared method+password object built
by `_build_protocol_settings`, passes through unchanged). -/
theorem C5_projection (db : Db) (ib : Inbound) (hib : ib ∈ db.inbounds)
    (hen : ib.enabled = true) :
    inboundCfgOf db ib ∈ (xrayConfigOf db).inbounds ∧
    (ib.protocol = "vless" →
      clientsArrOf (inboundCfgOf db ib) =
        (enabledClientsOf db ib).map (fun c =>
          Json.obj [("id", .str c.uuid), ("email", .str c.email),
                    ("flow", .str c.flow)])) ∧
    (ib.protocol = "vmess" →
      clientsArrOf (inboundCfgOf db ib) =
        (enabledClientsOf db ib).map (fun c =>
          Json.obj [("id", .str c.uuid), ("email", .str c.email),
                    ("alterId", .num 0)])) ∧
    (ib.protocol = "trojan" →
      clientsArrOf (inboundCfgOf db ib) =
        (enabledClientsOf db ib).map (fun c =>
          Json.obj [("password", .str c.uuid), ("email", .str c.email)])) ∧
    (ib.protocol = "shadowsocks" →
      (inboundCfgOf db ib).settings = ib.settings) ∧
    (isClientProtocol ib.protocol = true →
      ∀ j ∈ clientsArrOf (inboundCfgOf db ib), ∃ fs, j = Json.obj fs ∧
        "expiry" ∉ objKeys fs ∧ "quota" ∉ objKeys fs ∧
        "expiry_time" ∉ objKeys fs ∧ "traffic_limit" ∉ objKeys fs) ∧
    (∀ d : InboundCreate, ∀ pw : String, d.protocol = "shadowsocks" →
      objKeys (build_protocol_settings d pw) = ["method", "password", "network"]) := by
  refine ⟨?_, ?_, ?_, ?_, ?_, ?_, ?_⟩
  · exact List.mem_cons_of_mem _
      (List.mem_map_of_mem _ (List.mem_filter.mpr ⟨hib, hen⟩))
  · intro hp
    have hcp : isClientProtocol ib.protocol = true := by rw [hp]; decide
    rw [clientsArrOf_clientProtocol db ib hcp, hp]
    exact List.map_congr_left (fun c _ => rfl)
  · intro hp
    have hcp : isClientProtocol ib.protocol = true := by rw [hp]; decide
    rw [clientsArrOf_clientProtocol db ib hcp, hp]
    exact List.map_congr_left (fun c _ => rfl)
  · intro hp
    have hcp : isClientProtocol ib.protocol = true := by rw [hp]; decide
    rw [clientsArrOf_clientProtocol db ib hcp, hp]
    exact List.map_congr_left (fun c _ => rfl)
  · intro hss
    unfold inboundCfgOf
    dsimp only
    rw [if_neg (by rw [hss]; decide)]
  · intro hcp j hj
    rw [clientsArrOf_clientProtocol db ib hcp] at hj
    rcases List.mem_map.mp hj with ⟨c, hc, rfl⟩
    have hp2 := hcp
    simp only [isClientProtocol, Bool.or_eq_true, beq_iff_eq] at hp2
    rcases hp2 with (hp2 | hp2) | hp2
    · rw [hp2]
      exact ⟨[("id", .str c.uuid), ("email", .str c.email),
              ("flow", .str c.flow)],
             rfl, by simp [objKeys], by simp [objKeys], by simp [objKeys],
             by simp [objKeys]⟩
    · rw [hp2]
      exact ⟨[("id", .str c.uuid), ("email", .str c.email),
              ("alterId", .num 0)],
             rfl, by simp [objKeys], by simp [objKeys], by simp [objKeys],
             by simp [objKeys]⟩
    · rw [hp2]
      exact ⟨[("password", .str c.uuid), ("email", .str c.email)],
             rfl, by simp [objKeys], by simp [objKeys], by simp [objKeys],
             by simp [objKeys]⟩
  · intro d pw hss
    simp [build_protocol_settings, hss, objKeys]

/-- Witness for C5 on the mixed sample: the emitted vless client entry is
exactly the id/email/flow object of the single enabled client, the
shadowsocks settings blob passes through unchanged, and the blob built for a
shadowsocks creation request has exactly the method/password/network keys. -/
theorem C5_projection_witness :
    clientsArrOf (inboundCfgOf dbMix ibV) =
      [Json.obj [("id", .str "uuid-v1"), ("email", .str "eve"),
                 ("flow", .str "")]] ∧
    (inboundCfgOf dbMix ibSS).settings = ibSS.settings ∧
    objKeys (build_protocol_settings { protocol := "shadowsocks", port := 1 } "pw") =
      ["method", "password", "network"] := by
  have hv := C5_projection dbMix ibV
    (List.mem_cons_of_mem _ (List.mem_cons_self _ _)) rfl
  have hs := C5_projection dbMix ibSS (List.mem_cons_self _ _) rfl
  refine ⟨?_, hs.2.2.2.2.1 rfl, hv.2.2.2.2.2.2 _ "pw" rfl⟩
  exact (hv.2.1 rfl).trans rfl
